import Mathlib

/-!
# VideoDecoderVDA: decoder context lifecycle and frame extraction

A shallow embedding of `src/VideoDecoderVDA.cpp`.

* Pointers and handles are numbers, `0` being the null pointer.
* A C `int` is an `Int`; where the file stores a wider value in an `int` or
  does `int` arithmetic, the result is brought back into 32 bits by `to_int`.
  Signed overflow, undefined in C, thus wraps around in the model, and the
  theorems that depend on the arithmetic assume that it does not occur.
* Everything the file calls but does not define (libavcodec, CoreVideo,
  `GPUMemCopy`, `VideoFormat`) is a parameter, bundled in `Externals`.  Every
  such call is appended to the call log kept in the decoder state, and a
  collaborator that has state of its own answers as a function of that log.
-/

namespace QtAV

/-! ## Data model -/

/-- Values of `VideoFormat::PixelFormat` that `frame()` works with. -/
inductive PixelFormat where
  | Format_Invalid
  | Format_YUV420P
  | Format_UYVY
  deriving DecidableEq, Repr

/-- Values of `AVPixelFormat` that the decoder hands to libavcodec. -/
inductive AVPixelFormat where
  | AV_PIX_FMT_NONE
  | AV_PIX_FMT_VDA_VLD
  deriving DecidableEq, Repr

/-- Fields of libavcodec's `struct vda_context` that the file reads or writes. -/
structure vda_context where
  decoder : Nat
  width : Int
  height : Int
  format : Nat
  cv_pix_fmt_type : Nat
  deriving DecidableEq, Repr

/-- Calls that leave the translation unit, with the arguments they carry. -/
inductive Call where
  | ff_vda_destroy_decoder (decoder : Nat)
  | ff_vda_create_decoder (width height : Int)
  | cleanCache
  | initCache (width : Int)
  | isReady
  | copyFrame (src dst : Int) (src_pitch h dst_pitch : Int)
  | restore
  | CVPixelBufferGetDataSize (buf : Nat)
  | CVPixelBufferLockBaseAddress (buf : Nat)
  | CVPixelBufferGetBaseAddressOfPlane (buf : Nat) (i : Nat)
  | CVPixelBufferGetBytesPerRowOfPlane (buf : Nat) (i : Nat)
  | CVPixelBufferUnlockBaseAddress (buf : Nat)
  | CVPixelBufferRelease (buf : Nat)
  | qDebug (msg : String)
  | qWarning (msg : String) (arg : Int) (str : Option String)
  deriving DecidableEq, Repr

/-- State of `VideoDecoderVDAPrivate`: the members the file uses, the address
of the `hw_ctx` member, and the log of calls issued so far. -/
structure VideoDecoderVDAPrivate where
  width : Int
  height : Int
  va_pixfmt : AVPixelFormat
  description : String
  hw_ctx_addr : Nat
  hw_ctx : vda_context
  copy_uswc : Bool
  calls : List Call
  deriving DecidableEq, Repr

/-- Collaborators of the file.  `ff_vda_create_decoder` returns the status and
the context as the library leaves it, `ff_vda_destroy_decoder` the context as
the library leaves it; `isReady` is `GPUMemCopy::isReady`; `planeCount` and
`chromaHeight` are the `VideoFormat` queries. -/
structure Externals where
  ff_vda_create_decoder : List Call → vda_context → Int × vda_context
  ff_vda_destroy_decoder : List Call → vda_context → vda_context
  isReady : List Call → Bool
  planeCount : PixelFormat → Nat
  chromaHeight : PixelFormat → Int → Int

/-- A decoded picture as CoreVideo presents it: the handle found in
`frame->data[3]` and the answers of the queries made on it; the data size
and the bytes per row are `size_t` values. -/
structure CVPixelBufferRef where
  ptr : Nat
  dataSize : Nat
  baseAddressOfPlane : Nat → Int
  bytesPerRowOfPlane : Nat → Nat

/-- What `frame()` sets on a `VideoFrame`: the byte array it owns (address of
its data and its size) if any, the dimensions, the format, the plane
pointers and the bytes per line. -/
structure VideoFrame where
  data : Option (Int × Int)
  width : Int
  height : Int
  format : PixelFormat
  bits : List Int
  bytesPerLine : List Int
  deriving DecidableEq, Repr

/-! ## Constants of the platform headers -/

/-- `kVDADecoderHardwareNotSupportedErr` of `VDADecoder.h`. -/
def kVDADecoderHardwareNotSupportedErr : Int := -12470
/-- `kVDADecoderFormatNotSupportedErr` of `VDADecoder.h`. -/
def kVDADecoderFormatNotSupportedErr : Int := -12471
/-- `kVDADecoderConfigurationError` of `VDADecoder.h`. -/
def kVDADecoderConfigurationError : Int := -12472
/-- `kVDADecoderDecoderFailedErr` of `VDADecoder.h`. -/
def kVDADecoderDecoderFailedErr : Int := -12473

/-- `kCVPixelFormatType_420YpCbCr8Planar`, the four-character code `y420`. -/
def kCVPixelFormatType_420YpCbCr8Planar : Nat := 0x79343230
/-- `kCVPixelFormatType_422YpCbCr8`, the four-character code `2vuy`. -/
def kCVPixelFormatType_422YpCbCr8 : Nat := 0x32767579
/-- The multi-character constant `avc1`. -/
def fourcc_avc1 : Nat := 0x61766331

/-- The largest C `int`. -/
def INT_MAX : Int := 2147483647

/-- The value of a 32-bit two's-complement `int` holding `x`: what a wider
value becomes when it is stored in an `int`. -/
def to_int (x : Int) : Int :=
  (x + 2147483648) % 4294967296 - 2147483648

/-! ## The error table -/

/-- `struct vda_error`; `str` is `none` for the null pointer. -/
structure vda_error where
  code : Int
  str : Option String
  deriving DecidableEq, Repr

/-- The table `vda_errors`, closed by the entry with code zero. -/
def vda_errors : List vda_error :=
  [ ⟨kVDADecoderHardwareNotSupportedErr,
      some "Hardware doesn\x27t support accelerated decoding"⟩,
    ⟨kVDADecoderFormatNotSupportedErr,
      some "Hardware doesn\x27t support requested output format"⟩,
    ⟨kVDADecoderConfigurationError,
      some "Invalid configuration provided to VDADecoderCreate"⟩,
    ⟨kVDADecoderDecoderFailedErr,
      some ("Generic error returned by the decoder layer. The cause can range from"
        ++ " VDADecoder finding errors in the bitstream to another application"
        ++ " using VDA at the moment. Only one application can use VDA at a"
        ++ " givent time.")⟩,
    ⟨0, none⟩ ]

/-- The loop of `vda_err_str` from entry `i` on: it stops at the first entry
whose code is zero, skips the entries whose code is not `err`, and returns the
string of the first one that matches. -/
def vda_err_str_from (err : Int) : List vda_error → Option String
  | [] => none
  | e :: rest =>
    if e.code = 0 then none
    else if e.code ≠ err then vda_err_str_from err rest
    else e.str

/-- `vda_err_str(err)`; `none` is the `return 0` after the loop. -/
def vda_err_str (err : Int) : Option String :=
  vda_err_str_from err vda_errors

/-! ## The decoder context -/

namespace VideoDecoderVDAPrivate

/-- Append calls to the log. -/
def issue (d : VideoDecoderVDAPrivate) (cs : List Call) : VideoDecoderVDAPrivate :=
  { d with calls := d.calls ++ cs }

/-- The constructor: `copy_uswc(false)`, the description, `va_pixfmt`, and
`hw_ctx` cleared by `memset`.  The members initialised by the base class and
the address of `hw_ctx` are arguments. -/
def ctor (base_width base_height : Int) (hw_ctx_addr : Nat) : VideoDecoderVDAPrivate :=
  { width := base_width
    height := base_height
    va_pixfmt := AVPixelFormat.AV_PIX_FMT_VDA_VLD
    description := "VDA"
    hw_ctx_addr := hw_ctx_addr
    hw_ctx := ⟨0, 0, 0, 0, 0⟩
    copy_uswc := false
    calls := [] }

end VideoDecoderVDAPrivate

open VideoDecoderVDAPrivate

/-- `setSSE4(y)`. -/
def setSSE4 (y : Bool) (d : VideoDecoderVDAPrivate) : VideoDecoderVDAPrivate :=
  { d with copy_uswc := y }

/-- What `setup` hands back: the return value and the two out-parameters. -/
structure SetupResult where
  ret : Bool
  pp_hw_ctx : Nat
  pi_chroma : AVPixelFormat
  deriving DecidableEq, Repr

/-- The first part of the creation path of `setup`: destroy the decoder that
is there (and clean the cache under `copy_uswc`), or else clear the context
and set the stream tag and the CoreVideo pixel format. -/
def setup_teardown (L : Externals) (d : VideoDecoderVDAPrivate) : VideoDecoderVDAPrivate :=
  if d.hw_ctx.decoder ≠ 0 then
    let d1 : VideoDecoderVDAPrivate :=
      { d with hw_ctx := L.ff_vda_destroy_decoder d.calls d.hw_ctx
               calls := d.calls ++ [Call.ff_vda_destroy_decoder d.hw_ctx.decoder] }
    if d1.copy_uswc then d1.issue [Call.cleanCache] else d1
  else
    { d with hw_ctx := ⟨0, 0, 0, fourcc_avc1, kCVPixelFormatType_420YpCbCr8Planar⟩ }

/-- `VideoDecoderVDAPrivate::setup(pp_hw_ctx, pi_chroma, w, h)`. -/
def setup (L : Externals) (w h : Int) (d : VideoDecoderVDAPrivate) :
    SetupResult × VideoDecoderVDAPrivate :=
  if d.hw_ctx.width = w ∧ d.hw_ctx.height = h ∧ d.hw_ctx.decoder ≠ 0 then
    (⟨true, d.hw_ctx_addr, d.va_pixfmt⟩, { d with width := w, height := h })
  else
    let d1 := setup_teardown L d
    let d2 : VideoDecoderVDAPrivate :=
      { d1 with hw_ctx := { d1.hw_ctx with width := w, height := h }
                width := w
                height := h }
    let r := L.ff_vda_create_decoder d2.calls d2.hw_ctx
    let d3 : VideoDecoderVDAPrivate :=
      { d2 with hw_ctx := r.2
                calls := d2.calls ++ [Call.ff_vda_create_decoder d2.hw_ctx.width d2.hw_ctx.height] }
    if r.1 ≠ 0 then
      (⟨false, d.hw_ctx_addr, d.va_pixfmt⟩,
        d3.issue [Call.qWarning "Failed to create decoder (%i): %s" r.1 (vda_err_str r.1)])
    else
      let d4 := d3.issue [Call.qDebug "VDA decoder created"]
      (⟨true, d.hw_ctx_addr, d.va_pixfmt⟩,
        if d4.copy_uswc then d4.issue [Call.initCache d4.hw_ctx.width] else d4)

/-- `VideoDecoderVDAPrivate::close()`. -/
def close (L : Externals) (d : VideoDecoderVDAPrivate) : VideoDecoderVDAPrivate :=
  let d1 := d.issue [Call.restore, Call.qDebug "destroying VDA decoder"]
  let d2 : VideoDecoderVDAPrivate :=
    { d1 with hw_ctx := L.ff_vda_destroy_decoder d1.calls d1.hw_ctx
              calls := d1.calls ++ [Call.ff_vda_destroy_decoder d1.hw_ctx.decoder] }
  if d2.copy_uswc then d2.issue [Call.cleanCache] else d2

/-! ## Frame extraction -/

/-- The default-constructed `VideoFrame()`. -/
def VideoFrame.empty : VideoFrame :=
  { data := none, width := 0, height := 0, format := PixelFormat.Format_Invalid,
    bits := [], bytesPerLine := [] }

/-- The `switch` of `frame()` on `hw_ctx.cv_pix_fmt_type`. -/
def pixfmt_of_cv (cv_pix_fmt_type : Nat) : PixelFormat :=
  if cv_pix_fmt_type = kCVPixelFormatType_420YpCbCr8Planar then PixelFormat.Format_YUV420P
  else if cv_pix_fmt_type = kCVPixelFormatType_422YpCbCr8 then PixelFormat.Format_UYVY
  else PixelFormat.Format_Invalid

/-- What the first loop of `frame()` leaves in `src`, `pitch`, `plane_h` and
`yuv_size`. -/
structure PlaneInfo where
  src : List Int
  pitch : List Int
  plane_h : List Int
  yuv_size : Int
  deriving DecidableEq, Repr

/-- The first loop of `frame()`, iterations `i, i+1, ..` with `n` of them left:
plane `i` contributes its base address, its bytes per row stored in the
`int` `pitch[i]`, its height (the picture height for plane 0, the chroma height
otherwise) and adds `pitch[i] * plane_h[i]` to the `int` `yuv_size`. -/
def read_planes (L : Externals) (fmt : PixelFormat) (height : Int) (cv_buffer : CVPixelBufferRef) :
    Nat → Nat → PlaneInfo → PlaneInfo
  | _, 0, acc => acc
  | i, n + 1, acc =>
    let s := cv_buffer.baseAddressOfPlane i
    let p := to_int (cv_buffer.bytesPerRowOfPlane i)
    let ph := if i = 0 then height else L.chromaHeight fmt height
    read_planes L fmt height cv_buffer (i + 1) n
      { src := acc.src ++ [s], pitch := acc.pitch ++ [p], plane_h := acc.plane_h ++ [ph],
        yuv_size := to_int (acc.yuv_size + to_int (p * ph)) }

/-- The CoreVideo queries of the first loop, in order. -/
def read_planes_calls (buf : Nat) : Nat → Nat → List Call
  | _, 0 => []
  | i, n + 1 =>
    Call.CVPixelBufferGetBaseAddressOfPlane buf i
      :: Call.CVPixelBufferGetBytesPerRowOfPlane buf i
      :: read_planes_calls buf (i + 1) n

/-- The second loop of `frame()`: `dst[i] = plane_ptr`, then `plane_ptr` moves
on by the `int` `pitch[i] * plane_h[i]`, then plane `i` is copied.  The
arguments are the remaining entries of `src`, `pitch` and `plane_h`; the result
is the rest of `dst`. -/
def copy_planes_dst : Int → List Int → List Int → List Int → List Int
  | plane_ptr, _ :: src, p :: pitch, ph :: plane_h =>
    plane_ptr :: copy_planes_dst (plane_ptr + to_int (p * ph)) src pitch plane_h
  | _, _, _, _ => []

/-- The `copyFrame` calls of the second loop, in order. -/
def copy_planes_calls : Int → List Int → List Int → List Int → List Call
  | plane_ptr, s :: src, p :: pitch, ph :: plane_h =>
    Call.copyFrame s plane_ptr p ph p
      :: copy_planes_calls (plane_ptr + to_int (p * ph)) src pitch plane_h
  | _, _, _, _ => []

/-- The alignment offset `(16 - ((uintptr_t)buf.data() & 0x0f)) & 0x0f`. -/
def offset_16 (buf_data : Int) : Int :=
  (16 - (buf_data % 16)) % 16

/-- The calls `frame()` makes on a usable buffer up to and including the
release of the buffer. -/
def frame_read_calls (L : Externals) (fmt : PixelFormat) (cv_buffer : CVPixelBufferRef) :
    List Call :=
  [Call.CVPixelBufferGetDataSize cv_buffer.ptr, Call.CVPixelBufferLockBaseAddress cv_buffer.ptr]
    ++ read_planes_calls cv_buffer.ptr 0 (L.planeCount fmt)
    ++ [Call.CVPixelBufferUnlockBaseAddress cv_buffer.ptr, Call.CVPixelBufferRelease cv_buffer.ptr]

/-- `VideoDecoderVDA::frame()`.  `cv_buffer` is `d.frame->data[3]`; `buf_data`
is the address at which the byte array of the copy branch gets its data. -/
def frame (L : Externals) (d : VideoDecoderVDAPrivate) (cv_buffer : CVPixelBufferRef)
    (buf_data : Int) : VideoFrame × VideoDecoderVDAPrivate :=
  if cv_buffer.ptr = 0 then
    (VideoFrame.empty, d.issue [Call.qDebug "Frame buffer is empty."])
  else
    let d1 := d.issue [Call.CVPixelBufferGetDataSize cv_buffer.ptr]
    if cv_buffer.dataSize ≤ 0 then
      (VideoFrame.empty, d1.issue [Call.qDebug "Empty frame buffer"])
    else
      let pixfmt := pixfmt_of_cv d1.hw_ctx.cv_pix_fmt_type
      if pixfmt = PixelFormat.Format_Invalid then
        (VideoFrame.empty,
          d1.issue [Call.qWarning "unsupported vda pixel format: %#x" d1.hw_ctx.cv_pix_fmt_type none])
      else
        let fmt := pixfmt
        let d2 := d1.issue [Call.CVPixelBufferLockBaseAddress cv_buffer.ptr]
        let pl := read_planes L fmt d2.height cv_buffer 0 (L.planeCount fmt) ⟨[], [], [], 0⟩
        let d3 := d2.issue (read_planes_calls cv_buffer.ptr 0 (L.planeCount fmt))
        let d4 := d3.issue [Call.CVPixelBufferUnlockBaseAddress cv_buffer.ptr]
        let d5 := d4.issue [Call.CVPixelBufferRelease cv_buffer.ptr]
        if d5.copy_uswc then
          let d6 := d5.issue [Call.isReady]
          if L.isReady d5.calls then
            let plane_ptr := buf_data + offset_16 buf_data
            let dst := copy_planes_dst plane_ptr pl.src pl.pitch pl.plane_h
            let d7 := d6.issue (copy_planes_calls plane_ptr pl.src pl.pitch pl.plane_h)
            ({ data := some (buf_data, to_int (15 + pl.yuv_size)), width := d7.width,
               height := d7.height, format := fmt, bits := dst, bytesPerLine := pl.pitch }, d7)
          else
            ({ data := none, width := d6.width, height := d6.height, format := fmt,
               bits := pl.src, bytesPerLine := pl.pitch }, d6)
        else
          ({ data := none, width := d5.width, height := d5.height, format := fmt,
             bits := pl.src, bytesPerLine := pl.pitch }, d5)

/-! ## Observations on the call log -/

/-- The calls issued between two states of the same decoder. -/
def issued (before after : VideoDecoderVDAPrivate) : List Call :=
  after.calls.drop before.calls.length

/-- Is the call `ff_vda_create_decoder`? -/
def Call.isCreate : Call → Bool
  | Call.ff_vda_create_decoder _ _ => true
  | _ => false

/-- Is the call `GPUMemCopy::copyFrame`? -/
def Call.isCopyFrame : Call → Bool
  | Call.copyFrame _ _ _ _ _ => true
  | _ => false

/-- Is the call `CVPixelBufferLockBaseAddress`? -/
def Call.isLock : Call → Bool
  | Call.CVPixelBufferLockBaseAddress _ => true
  | _ => false

/-- Is the call `CVPixelBufferUnlockBaseAddress`? -/
def Call.isUnlock : Call → Bool
  | Call.CVPixelBufferUnlockBaseAddress _ => true
  | _ => false

/-- Is the call `CVPixelBufferRelease`? -/
def Call.isRelease : Call → Bool
  | Call.CVPixelBufferRelease _ => true
  | _ => false

/-- Does `setup(w, h)` in state `d` call `ff_vda_create_decoder`? -/
def setup_creates (L : Externals) (w h : Int) (d : VideoDecoderVDAPrivate) : Bool :=
  (issued d (setup L w h d).2).any Call.isCreate

/-- A sequence of `setup` calls, each with its `(w, h)`. -/
def setup_seq (L : Externals) : VideoDecoderVDAPrivate → List (Int × Int) → VideoDecoderVDAPrivate
  | d, [] => d
  | d, wh :: rest => setup_seq L (setup L wh.1 wh.2 d).2 rest

/-- A sequence of decode cycles: `frame()` on each buffer in turn. -/
def frame_seq (L : Externals) :
    VideoDecoderVDAPrivate → List (CVPixelBufferRef × Int) → VideoDecoderVDAPrivate
  | d, [] => d
  | d, b :: rest => frame_seq L (frame L d b.1 b.2).2 rest

/-- In the call list, no `copyFrame` follows a release of the buffer `buf`. -/
def release_after_copies (buf : Nat) : List Call → Bool
  | [] => true
  | c :: rest =>
    if c = Call.CVPixelBufferRelease buf then !(rest.any Call.isCopyFrame)
    else release_after_copies buf rest

/-! ## Derived quantities used in the statements -/

/-- The calls `setup_teardown` issues. -/
def setup_teardown_calls (d : VideoDecoderVDAPrivate) : List Call :=
  if d.hw_ctx.decoder ≠ 0 then
    Call.ff_vda_destroy_decoder d.hw_ctx.decoder :: (if d.copy_uswc then [Call.cleanCache] else [])
  else []

/-- The pixel format `frame()` derives from the session. -/
def frame_fmt (d : VideoDecoderVDAPrivate) : PixelFormat :=
  pixfmt_of_cv d.hw_ctx.cv_pix_fmt_type

/-- A usable decoded buffer: non-null, of positive data size, and the session's
CoreVideo pixel format is one of the two that `frame()` supports. -/
def usable (d : VideoDecoderVDAPrivate) (cv_buffer : CVPixelBufferRef) : Prop :=
  cv_buffer.ptr ≠ 0 ∧ 0 < cv_buffer.dataSize ∧ frame_fmt d ≠ PixelFormat.Format_Invalid

instance (d : VideoDecoderVDAPrivate) (cv_buffer : CVPixelBufferRef) :
    Decidable (usable d cv_buffer) := by
  unfold usable; infer_instance

/-- What the first loop of `frame()` reads from a usable buffer. -/
def frame_planes (L : Externals) (d : VideoDecoderVDAPrivate) (cv_buffer : CVPixelBufferRef) :
    PlaneInfo :=
  read_planes L (frame_fmt d) d.height cv_buffer 0 (L.planeCount (frame_fmt d)) ⟨[], [], [], 0⟩

/-- Height of plane `j` as the first loop of `frame()` computes it. -/
def plane_height (L : Externals) (d : VideoDecoderVDAPrivate) (j : Nat) : Int :=
  if j = 0 then d.height else L.chromaHeight (frame_fmt d) d.height

/-- The stride of plane `j` as `frame()` holds it in the `int` `pitch[j]`. -/
def pitch_of (cv_buffer : CVPixelBufferRef) (j : Nat) : Int :=
  to_int (cv_buffer.bytesPerRowOfPlane j)

/-- The number of bytes of the planes before plane `k`: the sum of
`pitch[j] * plane_h[j]` over `j < k`.  At the plane count it is the payload
size. -/
def plane_offset (L : Externals) (d : VideoDecoderVDAPrivate) (cv_buffer : CVPixelBufferRef)
    (k : Nat) : Int :=
  ((List.range k).map (fun j => pitch_of cv_buffer j * plane_height L d j)).sum

/-- The calls `frame()` makes on a usable buffer after the release of the
buffer: `isReady` under `copy_uswc`, and the copies when the cache is ready. -/
def frame_tail_calls (L : Externals) (d : VideoDecoderVDAPrivate) (cv_buffer : CVPixelBufferRef)
    (a : Int) : List Call :=
  if d.copy_uswc = true then
    if L.isReady (d.calls ++ frame_read_calls L (frame_fmt d) cv_buffer) = true then
      Call.isReady :: copy_planes_calls (a + offset_16 a) (frame_planes L d cv_buffer).src
        (frame_planes L d cv_buffer).pitch (frame_planes L d cv_buffer).plane_h
    else [Call.isReady]
  else []

/-! ## Instances of the collaborators -/

/-- The last cache call in the log: `true` for `initCache`, `false` for
`cleanCache`, `none` when there is none. -/
def cache_last : List Call → Option Bool
  | [] => none
  | c :: rest =>
    match cache_last rest with
    | some b => some b
    | none =>
      match c with
      | Call.initCache _ => some true
      | Call.cleanCache => some false
      | _ => none

/-- Modelled from the spec: `GPUMemCopy` is not in the source.  The cache is
valid from a call of `initCache` until the next `cleanCache`, and `isReady`
reports whether it is valid. -/
def cache_ready (log : List Call) : Bool :=
  (cache_last log).getD false

/-- Modelled from the spec: `VideoFormat::planeCount` is not in the source.
Three planes for the planar 4:2:0 format, one for the packed 4:2:2 format. -/
def planeCount : PixelFormat → Nat
  | PixelFormat.Format_YUV420P => 3
  | PixelFormat.Format_UYVY => 1
  | PixelFormat.Format_Invalid => 0

/-- Modelled from the spec: `VideoFormat::chromaHeight` is not in the source.
Half the luma height, rounded up, for 4:2:0; the luma height otherwise. -/
def chromaHeight : PixelFormat → Int → Int
  | PixelFormat.Format_YUV420P, h => (h + 1) / 2
  | _, h => h

/-- A library whose `ff_vda_create_decoder` succeeds and stores a handle not
used before, and whose `ff_vda_destroy_decoder` destroys the decoder and
leaves the fields of the context as they are. -/
def lib_ok : Externals :=
  { ff_vda_create_decoder := fun log ctx =>
      (0, { ctx with decoder := 1 + (log.filter Call.isCreate).length })
    ff_vda_destroy_decoder := fun _ ctx => ctx
    isReady := cache_ready
    planeCount := planeCount
    chromaHeight := chromaHeight }

/-- A library whose `ff_vda_create_decoder` fails with
`kVDADecoderHardwareNotSupportedErr` and leaves the context as it is. -/
def lib_unsupported : Externals :=
  { lib_ok with
    ff_vda_create_decoder := fun _ ctx => (kVDADecoderHardwareNotSupportedErr, ctx) }

/-- A library like `lib_ok` whose `ff_vda_destroy_decoder` also clears the
decoder handle of the context. -/
def lib_clearing : Externals :=
  { lib_ok with
    ff_vda_destroy_decoder := fun _ ctx => { ctx with decoder := 0 } }

/-- A decoded 4x2 planar picture: handle 7, 12 bytes, planes at 4096, 4104, 4108. -/
def sample_buffer : CVPixelBufferRef :=
  { ptr := 7
    dataSize := 12
    baseAddressOfPlane := fun i => if i = 0 then 4096 else if i = 1 then 4104 else 4108
    bytesPerRowOfPlane := fun i => if i = 0 then 4 else 2 }

/-- A session configured for 4x2 pictures by one `setup` call on `lib_ok`. -/
def sample_session (copy_uswc : Bool) : VideoDecoderVDAPrivate :=
  (setup lib_ok 4 2 (setSSE4 copy_uswc (ctor 0 0 512))).2

/-! ## The error table: theorems -/

/-- C1: in a state whose hardware context holds a non-null decoder and the
recorded width `w` and height `h`, `setup(w, h)` returns true, hands back the
address of the hardware context and `va_pixfmt`, issues no call at all, and
leaves every field of the hardware context (indeed everything but the
session's own `width` and `height`, set to `w` and `h`) as it was. -/
theorem setup_reuse (L : Externals) (d : VideoDecoderVDAPrivate) (w h : Int)
    (hw : d.hw_ctx.width = w) (hh : d.hw_ctx.height = h) (hd : d.hw_ctx.decoder ≠ 0) :
    (setup L w h d).1 = ⟨true, d.hw_ctx_addr, d.va_pixfmt⟩ ∧
    (setup L w h d).2.calls = d.calls ∧
    issued d (setup L w h d).2 = [] ∧
    (setup L w h d).2.hw_ctx = d.hw_ctx ∧
    (setup L w h d).2 = { d with width := w, height := h } := by
  have hc : d.hw_ctx.width = w ∧ d.hw_ctx.height = h ∧ d.hw_ctx.decoder ≠ 0 := ⟨hw, hh, hd⟩
  simp [setup, hc, issued]

/-- C1, witness: a second `setup(4, 2)` on a session configured for 4x2. -/
theorem setup_reuse_witness :
    (setup lib_ok 4 2 (sample_session true)).1
        = ⟨true, 512, AVPixelFormat.AV_PIX_FMT_VDA_VLD⟩ ∧
      (setup lib_ok 4 2 (sample_session true)).2.calls = (sample_session true).calls :=
  have h := setup_reuse lib_ok (sample_session true) 4 2 (by decide) (by decide) (by decide)
  ⟨h.1, h.2.1⟩

theorem setup_teardown_log (L : Externals) (d : VideoDecoderVDAPrivate) :
    (setup_teardown L d).calls = d.calls ++ setup_teardown_calls d := by
  unfold setup_teardown setup_teardown_calls
  by_cases hd : d.hw_ctx.decoder = 0
  · simp [hd]
  · by_cases hc : d.copy_uswc = true <;> simp [hd, hc, issue]

theorem setup_teardown_calls_no_create (d : VideoDecoderVDAPrivate) :
    (setup_teardown_calls d).any Call.isCreate = false := by
  unfold setup_teardown_calls
  by_cases hd : d.hw_ctx.decoder = 0
  · simp [hd]
  · by_cases hc : d.copy_uswc = true <;> simp [hd, hc, Call.isCreate]

/-- Outside the reuse path `setup` issues the teardown calls, then
`ff_vda_create_decoder`, then calls among which there is no other creation. -/
theorem setup_create_log (L : Externals) (w h : Int) (d : VideoDecoderVDAPrivate)
    (hc : ¬ (d.hw_ctx.width = w ∧ d.hw_ctx.height = h ∧ d.hw_ctx.decoder ≠ 0)) :
    ∃ tail : List Call, tail.any Call.isCreate = false ∧
      (setup L w h d).2.calls
        = d.calls ++ (setup_teardown_calls d ++ Call.ff_vda_create_decoder w h :: tail) := by
  unfold setup
  rw [if_neg hc]
  simp only [issue, setup_teardown_log]
  split
  · exact ⟨[Call.qWarning _ _ _], by simp [Call.isCreate],
      by simp only [List.append_assoc, List.singleton_append, List.cons_append, List.nil_append]; rfl⟩
  · split
    · exact ⟨[Call.qDebug _, Call.initCache _], by simp [Call.isCreate],
        by simp only [List.append_assoc, List.singleton_append, List.cons_append, List.nil_append]; rfl⟩
    · exact ⟨[Call.qDebug _], by simp [Call.isCreate],
        by simp only [List.append_assoc, List.singleton_append, List.cons_append, List.nil_append]; rfl⟩

/-- `setup(w, h)` calls `ff_vda_create_decoder` exactly when it is not the
case that the context records `(w, h)` and holds a non-null decoder. -/
theorem setup_creates_eq (L : Externals) (w h : Int) (d : VideoDecoderVDAPrivate) :
    setup_creates L w h d = true ↔
      ((w, h) ≠ (d.hw_ctx.width, d.hw_ctx.height) ∨ d.hw_ctx.decoder = 0) := by
  by_cases hc : d.hw_ctx.width = w ∧ d.hw_ctx.height = h ∧ d.hw_ctx.decoder ≠ 0
  · have h1 : setup_creates L w h d = false := by
      simp [setup_creates, issued, setup, hc]
    rw [h1]
    obtain ⟨hw, hh, hd⟩ := hc
    simp [hw, hh, hd]
  · obtain ⟨tail, _, hlog⟩ := setup_create_log L w h d hc
    have h1 : setup_creates L w h d = true := by
      simp [setup_creates, issued, hlog, Call.isCreate]
    rw [h1]
    simp only [true_iff]
    by_contra hne
    push_neg at hne
    apply hc
    have h2 := hne.1
    simp only [Prod.mk.injEq] at h2
    exact ⟨h2.1.symm, h2.2.symm, hne.2⟩

/-- The number of `ff_vda_create_decoder` calls of one `setup` is at most one. -/
theorem setup_creates_once (L : Externals) (w h : Int) (d : VideoDecoderVDAPrivate) :
    ((issued d (setup L w h d).2).filter Call.isCreate).length
      = if setup_creates L w h d then 1 else 0 := by
  by_cases hc : d.hw_ctx.width = w ∧ d.hw_ctx.height = h ∧ d.hw_ctx.decoder ≠ 0
  · simp [setup_creates, issued, setup, hc]
  · obtain ⟨tail, htail, hlog⟩ := setup_create_log L w h d hc
    have h0 := setup_teardown_calls_no_create d
    have f1 : (setup_teardown_calls d).filter Call.isCreate = [] := by
      rw [List.filter_eq_nil_iff]
      intro a ha
      rw [List.any_eq_false] at h0
      exact h0 a ha
    have f2 : tail.filter Call.isCreate = [] := by
      rw [List.filter_eq_nil_iff]
      intro a ha
      rw [List.any_eq_false] at htail
      exact htail a ha
    simp [setup_creates, issued, hlog, Call.isCreate, List.filter_cons, f1, f2]

theorem setup_seq_append (L : Externals) (d : VideoDecoderVDAPrivate)
    (pre : List (Int × Int)) (wh : Int × Int) :
    setup_seq L d (pre ++ [wh]) = (setup L wh.1 wh.2 (setup_seq L d pre)).2 := by
  induction pre generalizing d with
  | nil => rfl
  | cons a rest ih => simp [setup_seq, ih]

/-- After `setup(w, h)` the context records `(w, h)`, provided the library
leaves the recorded dimensions alone when it creates a decoder. -/
theorem setup_records_dims (L : Externals) (w h : Int) (d : VideoDecoderVDAPrivate)
    (hL : ∀ log ctx, (L.ff_vda_create_decoder log ctx).2.width = ctx.width ∧
      (L.ff_vda_create_decoder log ctx).2.height = ctx.height) :
    (setup L w h d).2.hw_ctx.width = w ∧ (setup L w h d).2.hw_ctx.height = h := by
  by_cases hc : d.hw_ctx.width = w ∧ d.hw_ctx.height = h ∧ d.hw_ctx.decoder ≠ 0
  · simp [setup, hc]
  · unfold setup
    rw [if_neg hc]
    simp only [issue]
    split
    · exact ⟨(hL _ _).1, (hL _ _).2⟩
    · split
      · exact ⟨(hL _ _).1, (hL _ _).2⟩
      · exact ⟨(hL _ _).1, (hL _ _).2⟩

/-- C2 (as amended): in the state reached from a freshly constructed session
by any finite sequence of `setup` calls, the next call `setup(w, h)` invokes
`ff_vda_create_decoder` if and only if `(w, h)` differs from the dimensions
recorded in the hardware context or the context holds no decoder handle; it
invokes it at most once; the first call on a fresh session always invokes it;
and the recorded dimensions are those of the previous call whenever the
library leaves them alone. -/
theorem setup_seq_creates_iff (L : Externals) (bw bh : Int) (addr : Nat)
    (pre : List (Int × Int)) (w h : Int) :
    (setup_creates L w h (setup_seq L (ctor bw bh addr) pre) = true ↔
      ((w, h) ≠ ((setup_seq L (ctor bw bh addr) pre).hw_ctx.width,
                  (setup_seq L (ctor bw bh addr) pre).hw_ctx.height) ∨
        (setup_seq L (ctor bw bh addr) pre).hw_ctx.decoder = 0)) ∧
    ((issued (setup_seq L (ctor bw bh addr) pre)
        (setup L w h (setup_seq L (ctor bw bh addr) pre)).2).filter Call.isCreate).length
      = (if setup_creates L w h (setup_seq L (ctor bw bh addr) pre) then 1 else 0) ∧
    setup_creates L w h (ctor bw bh addr) = true ∧
    ((∀ log ctx, (L.ff_vda_create_decoder log ctx).2.width = ctx.width ∧
        (L.ff_vda_create_decoder log ctx).2.height = ctx.height) →
      ∀ pre1 wh, pre = pre1 ++ [wh] →
        ((setup_seq L (ctor bw bh addr) pre).hw_ctx.width,
          (setup_seq L (ctor bw bh addr) pre).hw_ctx.height) = wh) := by
  refine ⟨setup_creates_eq L w h _, setup_creates_once L w h _, ?_, ?_⟩
  · rw [setup_creates_eq]
    right
    rfl
  · intro hL pre1 wh hpre
    subst hpre
    rw [setup_seq_append]
    have hd := setup_records_dims L wh.1 wh.2 (setup_seq L (ctor bw bh addr) pre1) hL
    rw [hd.1, hd.2]

/-- C2, witness: after `setup(4, 2)` on a library that creates decoders, the
context records 4x2; `setup(4, 2)` then creates nothing and `setup(8, 2)`
creates one decoder. -/
theorem setup_seq_creates_iff_witness :
    setup_creates lib_ok 4 2 (setup_seq lib_ok (ctor 0 0 512) [(4, 2)]) = false ∧
    setup_creates lib_ok 8 2 (setup_seq lib_ok (ctor 0 0 512) [(4, 2)]) = true ∧
    ((setup_seq lib_ok (ctor 0 0 512) [(4, 2)]).hw_ctx.width,
      (setup_seq lib_ok (ctor 0 0 512) [(4, 2)]).hw_ctx.height) = ((4, 2) : Int × Int) :=
  ⟨by
      have h := (setup_seq_creates_iff lib_ok 0 0 512 [(4, 2)] 4 2).1
      exact Bool.eq_false_iff.mpr (fun hc => absurd (h.mp hc) (by decide)),
    (setup_seq_creates_iff lib_ok 0 0 512 [(4, 2)] 8 2).1.mpr (by decide),
    (setup_seq_creates_iff lib_ok 0 0 512 [(4, 2)] 4 2).2.2.2
      (fun _ _ => ⟨rfl, rfl⟩) [] (4, 2) rfl⟩

/-- C2, counterexample: when the library refuses to create a decoder,
`setup(640, 480)` on a fresh session fails and records 640x480; the next
`setup(640, 480)`, whose dimensions equal those recorded by the previous
call, invokes `ff_vda_create_decoder` again. -/
theorem setup_same_dims_creates_again :
    (setup lib_unsupported 640 480 (ctor 0 0 512)).1.ret = false ∧
    ((setup lib_unsupported 640 480 (ctor 0 0 512)).2.hw_ctx.width,
      (setup lib_unsupported 640 480 (ctor 0 0 512)).2.hw_ctx.height) = ((640, 480) : Int × Int) ∧
    setup_creates lib_unsupported 640 480 (setup lib_unsupported 640 480 (ctor 0 0 512)).2
      = true := by
  decide

/-- What `close()` does for any library: it issues `restore`,
`ff_vda_destroy_decoder` and, under `copy_uswc`, `cleanCache`, and the hardware
context after it is the one the library call returned: `close()` has no write
of its own to the decoder handle or the recorded dimensions.  The
`setup(w2, h2)` that follows invokes `ff_vda_create_decoder` whenever
`(w2, h2)` differs from the dimensions left in the context or the handle left
in it is null. -/
theorem close_then_setup (L : Externals) (d : VideoDecoderVDAPrivate) (w2 h2 : Int) :
    (close L d).hw_ctx
      = L.ff_vda_destroy_decoder
          (d.calls ++ [Call.restore, Call.qDebug "destroying VDA decoder"]) d.hw_ctx ∧
    issued d (close L d)
      = [Call.restore, Call.qDebug "destroying VDA decoder",
          Call.ff_vda_destroy_decoder d.hw_ctx.decoder]
        ++ (if d.copy_uswc then [Call.cleanCache] else []) ∧
    (((w2, h2) ≠ ((close L d).hw_ctx.width, (close L d).hw_ctx.height) ∨
        (close L d).hw_ctx.decoder = 0) →
      setup_creates L w2 h2 (close L d) = true) ∧
    ((∀ log ctx, (L.ff_vda_destroy_decoder log ctx).decoder = 0) →
      setup_creates L w2 h2 (close L d) = true) := by
  have hctx : (close L d).hw_ctx
      = L.ff_vda_destroy_decoder
          (d.calls ++ [Call.restore, Call.qDebug "destroying VDA decoder"]) d.hw_ctx := by
    unfold close
    by_cases hc : d.copy_uswc = true <;> simp [hc, issue]
  refine ⟨hctx, ?_, (setup_creates_eq L w2 h2 _).mpr, ?_⟩
  · unfold close
    by_cases hc : d.copy_uswc = true <;> simp [hc, issue, issued]
  · intro hL
    apply (setup_creates_eq L w2 h2 _).mpr
    right
    rw [hctx]
    exact hL _ _

/-- With a library that clears the handle on destroy, `close()` followed by
`setup(4, 2)` on a session configured for 4x2 creates a decoder. -/
theorem close_then_setup_witness :
    setup_creates lib_clearing 4 2 (close lib_clearing (sample_session true)) = true :=
  (close_then_setup lib_clearing (sample_session true) 4 2).2.2.2 (fun _ _ => rfl)

/-- C3, the code at the failing input: a session configured by a successful
`setup(4, 2)` holds decoder handle 1; `close()` calls
`ff_vda_destroy_decoder` on handle 1 and writes nothing to the context, so
with a library that destroys the decoder and leaves the handle field as it
is, the context still records 4x2 and handle 1; the `setup(4, 2)` that
follows returns true, invokes no `ff_vda_create_decoder`, and hands back the
context with the handle that was destroyed. -/
theorem close_then_setup_reuses :
    (sample_session true).hw_ctx.decoder = 1 ∧
    issued (sample_session true) (close lib_ok (sample_session true))
      = [Call.restore, Call.qDebug "destroying VDA decoder",
          Call.ff_vda_destroy_decoder 1, Call.cleanCache] ∧
    (close lib_ok (sample_session true)).hw_ctx = (sample_session true).hw_ctx ∧
    setup_creates lib_ok 4 2 (close lib_ok (sample_session true)) = false ∧
    (setup lib_ok 4 2 (close lib_ok (sample_session true))).1.ret = true ∧
    (setup lib_ok 4 2 (close lib_ok (sample_session true))).2.hw_ctx.decoder = 1 := by
  decide

theorem issue_hw_ctx (d : VideoDecoderVDAPrivate) (cs : List Call) :
    (d.issue cs).hw_ctx = d.hw_ctx := rfl

theorem issue_width (d : VideoDecoderVDAPrivate) (cs : List Call) :
    (d.issue cs).width = d.width := rfl

theorem issue_height (d : VideoDecoderVDAPrivate) (cs : List Call) :
    (d.issue cs).height = d.height := rfl

theorem issue_copy_uswc (d : VideoDecoderVDAPrivate) (cs : List Call) :
    (d.issue cs).copy_uswc = d.copy_uswc := rfl

theorem issue_calls (d : VideoDecoderVDAPrivate) (cs : List Call) :
    (d.issue cs).calls = d.calls ++ cs := rfl

theorem issue_issue (d : VideoDecoderVDAPrivate) (cs cs2 : List Call) :
    (d.issue cs).issue cs2 = d.issue (cs ++ cs2) := by
  simp [issue]

theorem frame_usable_eq (L : Externals) (d : VideoDecoderVDAPrivate)
    (cv_buffer : CVPixelBufferRef) (a : Int) (hu : usable d cv_buffer) :
    frame L d cv_buffer a =
      if d.copy_uswc = true then
        if L.isReady (d.calls ++ frame_read_calls L (frame_fmt d) cv_buffer) = true then
          ({ data := some (a, to_int (15 + (frame_planes L d cv_buffer).yuv_size)),
             width := d.width, height := d.height, format := frame_fmt d,
             bits := copy_planes_dst (a + offset_16 a) (frame_planes L d cv_buffer).src
               (frame_planes L d cv_buffer).pitch (frame_planes L d cv_buffer).plane_h,
             bytesPerLine := (frame_planes L d cv_buffer).pitch },
            d.issue (frame_read_calls L (frame_fmt d) cv_buffer ++ Call.isReady ::
              copy_planes_calls (a + offset_16 a) (frame_planes L d cv_buffer).src
                (frame_planes L d cv_buffer).pitch (frame_planes L d cv_buffer).plane_h))
        else
          ({ data := none, width := d.width, height := d.height, format := frame_fmt d,
             bits := (frame_planes L d cv_buffer).src,
             bytesPerLine := (frame_planes L d cv_buffer).pitch },
            d.issue (frame_read_calls L (frame_fmt d) cv_buffer ++ [Call.isReady]))
      else
        ({ data := none, width := d.width, height := d.height, format := frame_fmt d,
           bits := (frame_planes L d cv_buffer).src,
           bytesPerLine := (frame_planes L d cv_buffer).pitch },
          d.issue (frame_read_calls L (frame_fmt d) cv_buffer)) := by
  obtain ⟨h1, h2, h3⟩ := hu
  have h2' : ¬ cv_buffer.dataSize ≤ 0 := Nat.not_le.mpr h2
  have h3' : ¬ pixfmt_of_cv d.hw_ctx.cv_pix_fmt_type = PixelFormat.Format_Invalid := h3
  conv_lhs => unfold frame
  rw [if_neg h1]
  rw [if_neg h2']
  dsimp only
  simp only [issue_hw_ctx, issue_width, issue_height, issue_copy_uswc, issue_calls, issue_issue]
  rw [if_neg h3']
  simp only [frame_planes, frame_fmt, frame_read_calls, List.append_assoc, List.singleton_append,
    List.cons_append, List.nil_append]

theorem to_int_of_range (x : Int) (h0 : -2147483648 ≤ x) (h1 : x ≤ INT_MAX) :
    to_int x = x := by
  unfold INT_MAX at h1
  unfold to_int
  omega

theorem read_planes_src (L : Externals) (fmt : PixelFormat) (height : Int)
    (cv_buffer : CVPixelBufferRef) (n i : Nat) (acc : PlaneInfo) :
    (read_planes L fmt height cv_buffer i n acc).src
      = acc.src ++ (List.range' i n).map cv_buffer.baseAddressOfPlane := by
  induction n generalizing i acc with
  | zero => simp [read_planes]
  | succ n ih =>
    rw [read_planes, ih]
    simp [List.range'_succ]

theorem read_planes_pitch (L : Externals) (fmt : PixelFormat) (height : Int)
    (cv_buffer : CVPixelBufferRef) (n i : Nat) (acc : PlaneInfo) :
    (read_planes L fmt height cv_buffer i n acc).pitch
      = acc.pitch ++ (List.range' i n).map (pitch_of cv_buffer) := by
  induction n generalizing i acc with
  | zero => simp [read_planes]
  | succ n ih =>
    rw [read_planes, ih]
    simp [List.range'_succ, pitch_of]

theorem read_planes_plane_h (L : Externals) (fmt : PixelFormat) (height : Int)
    (cv_buffer : CVPixelBufferRef) (n i : Nat) (acc : PlaneInfo) :
    (read_planes L fmt height cv_buffer i n acc).plane_h
      = acc.plane_h ++ (List.range' i n).map
          (fun j => if j = 0 then height else L.chromaHeight fmt height) := by
  induction n generalizing i acc with
  | zero => simp [read_planes]
  | succ n ih =>
    rw [read_planes, ih]
    simp [List.range'_succ]

/-- Without overflow the first loop leaves in `yuv_size` the sum of the plane
sizes. -/
theorem read_planes_yuv (L : Externals) (fmt : PixelFormat) (height : Int)
    (cv_buffer : CVPixelBufferRef) (n i : Nat) (acc : PlaneInfo)
    (hacc : 0 ≤ acc.yuv_size)
    (hnn : ∀ j ∈ List.range' i n,
      0 ≤ pitch_of cv_buffer j * (if j = 0 then height else L.chromaHeight fmt height))
    (hs : acc.yuv_size + ((List.range' i n).map (fun j =>
      pitch_of cv_buffer j * (if j = 0 then height else L.chromaHeight fmt height))).sum
        ≤ INT_MAX) :
    (read_planes L fmt height cv_buffer i n acc).yuv_size
      = acc.yuv_size + ((List.range' i n).map (fun j =>
          pitch_of cv_buffer j * (if j = 0 then height else L.chromaHeight fmt height))).sum := by
  unfold pitch_of at hnn hs ⊢
  induction n generalizing i acc with
  | zero => simp [read_planes]
  | succ n ih =>
    have hrest : 0 ≤ ((List.range' (i + 1) n).map (fun j =>
        to_int (cv_buffer.bytesPerRowOfPlane j)
          * (if j = 0 then height else L.chromaHeight fmt height))).sum := by
      apply List.sum_nonneg
      intro x hx
      rw [List.mem_map] at hx
      obtain ⟨j, hj, rfl⟩ := hx
      exact hnn j (by rw [List.range'_succ]; exact List.mem_cons_of_mem _ hj)
    have ht : 0 ≤ to_int (cv_buffer.bytesPerRowOfPlane i)
        * (if i = 0 then height else L.chromaHeight fmt height) :=
      hnn i (by rw [List.range'_succ]; exact List.mem_cons_self _ _)
    rw [List.range'_succ, List.map_cons, List.sum_cons] at hs
    have hs2 : acc.yuv_size + (to_int (cv_buffer.bytesPerRowOfPlane i)
        * (if i = 0 then height else L.chromaHeight fmt height)
        + ((List.range' (i + 1) n).map (fun j =>
          to_int (cv_buffer.bytesPerRowOfPlane j)
            * (if j = 0 then height else L.chromaHeight fmt height))).sum) ≤ 2147483647 := hs
    have e1 : to_int (to_int (cv_buffer.bytesPerRowOfPlane i)
        * (if i = 0 then height else L.chromaHeight fmt height))
        = to_int (cv_buffer.bytesPerRowOfPlane i)
          * (if i = 0 then height else L.chromaHeight fmt height) :=
      to_int_of_range _ (by linarith) (by show _ ≤ (2147483647 : Int); linarith)
    have e2 : to_int (acc.yuv_size + to_int (cv_buffer.bytesPerRowOfPlane i)
        * (if i = 0 then height else L.chromaHeight fmt height))
        = acc.yuv_size + to_int (cv_buffer.bytesPerRowOfPlane i)
          * (if i = 0 then height else L.chromaHeight fmt height) :=
      to_int_of_range _ (by linarith) (by show _ ≤ (2147483647 : Int); linarith)
    rw [read_planes, e1, e2]
    rw [ih (i + 1) _ (by dsimp only; linarith)
      (fun j hj => hnn j (by rw [List.range'_succ]; exact List.mem_cons_of_mem _ hj))
      (by dsimp only; show _ ≤ (2147483647 : Int); linarith)]
    rw [List.range'_succ, List.map_cons, List.sum_cons, add_assoc]

theorem frame_planes_fields (L : Externals) (d : VideoDecoderVDAPrivate)
    (cv_buffer : CVPixelBufferRef) :
    (frame_planes L d cv_buffer).src
      = (List.range (L.planeCount (frame_fmt d))).map cv_buffer.baseAddressOfPlane ∧
    (frame_planes L d cv_buffer).pitch
      = (List.range (L.planeCount (frame_fmt d))).map (pitch_of cv_buffer) ∧
    (frame_planes L d cv_buffer).plane_h
      = (List.range (L.planeCount (frame_fmt d))).map (plane_height L d) := by
  unfold frame_planes
  rw [read_planes_src, read_planes_pitch, read_planes_plane_h]
  simp [List.range_eq_range', plane_height]

theorem sum_range_succ_shift (t : Nat → Int) (k : Nat) :
    ((List.range (k + 1)).map t).sum = t 0 + ((List.range k).map (fun j => t (j + 1))).sum := by
  rw [List.range_succ_eq_map, List.map_cons, List.sum_cons, List.map_map]
  rfl

theorem copy_planes_dst_range (n : Nat) (f g h : Nat → Int) (p : Int) :
    copy_planes_dst p ((List.range n).map f) ((List.range n).map g) ((List.range n).map h)
      = (List.range n).map (fun k =>
          p + ((List.range k).map (fun j => to_int (g j * h j))).sum) := by
  induction n generalizing f g h p with
  | zero => simp [copy_planes_dst]
  | succ n ih =>
    rw [List.range_succ_eq_map]
    simp only [List.map_cons, List.map_map]
    rw [copy_planes_dst, ih]
    simp only [List.range_zero, List.map_nil, List.sum_nil, add_zero, List.cons.injEq, true_and]
    apply List.map_congr_left
    intro k _
    simp only [Function.comp_apply, Nat.succ_eq_add_one]
    rw [sum_range_succ_shift (fun j => to_int (g j * h j)) k, add_assoc]

theorem copy_planes_calls_range (n : Nat) (f g h : Nat → Int) (p : Int) :
    copy_planes_calls p ((List.range n).map f) ((List.range n).map g) ((List.range n).map h)
      = (List.range n).map (fun k =>
          Call.copyFrame (f k) (p + ((List.range k).map (fun j => to_int (g j * h j))).sum)
            (g k) (h k) (g k)) := by
  induction n generalizing f g h p with
  | zero => simp [copy_planes_calls]
  | succ n ih =>
    rw [List.range_succ_eq_map]
    simp only [List.map_cons, List.map_map]
    rw [copy_planes_calls, ih]
    simp only [List.range_zero, List.map_nil, List.sum_nil, add_zero, List.cons.injEq, true_and]
    apply List.map_congr_left
    intro k _
    simp only [Function.comp_apply, Nat.succ_eq_add_one]
    rw [sum_range_succ_shift (fun j => to_int (g j * h j)) k, add_assoc]

theorem plane_offset_succ (L : Externals) (d : VideoDecoderVDAPrivate)
    (cv_buffer : CVPixelBufferRef) (k : Nat) :
    plane_offset L d cv_buffer (k + 1)
      = plane_offset L d cv_buffer k + pitch_of cv_buffer k * plane_height L d k := by
  unfold plane_offset
  rw [List.range_succ, List.map_append, List.sum_append, List.map_singleton,
    List.sum_singleton]

/-- With non-negative plane sizes the offsets grow with the plane index. -/
theorem plane_offset_mono (L : Externals) (d : VideoDecoderVDAPrivate)
    (cv_buffer : CVPixelBufferRef) (n : Nat)
    (hnn : ∀ j, j < n → 0 ≤ pitch_of cv_buffer j * plane_height L d j) (m : Nat) (hm : m ≤ n)
    (k : Nat) (hk : k ≤ m) :
    0 ≤ plane_offset L d cv_buffer k ∧
      plane_offset L d cv_buffer k ≤ plane_offset L d cv_buffer m := by
  induction m generalizing k with
  | zero =>
    have : k = 0 := by omega
    subst this
    simp [plane_offset]
  | succ m ih =>
    have hmm := ih (by omega) m (le_refl m)
    have ht := hnn m (by omega)
    rw [plane_offset_succ]
    by_cases hkm : k ≤ m
    · have := ih (by omega) k hkm
      constructor <;> omega
    · have : k = m + 1 := by omega
      subst this
      rw [plane_offset_succ]
      constructor <;> omega

theorem frame_usable_state (L : Externals) (d : VideoDecoderVDAPrivate)
    (cv_buffer : CVPixelBufferRef) (a : Int) (hu : usable d cv_buffer) :
    (frame L d cv_buffer a).2
      = d.issue (frame_read_calls L (frame_fmt d) cv_buffer ++ frame_tail_calls L d cv_buffer a) := by
  rw [frame_usable_eq L d cv_buffer a hu]
  unfold frame_tail_calls
  by_cases hc : d.copy_uswc = true
  · by_cases hr : L.isReady (d.calls ++ frame_read_calls L (frame_fmt d) cv_buffer) = true
    · simp only [hc, hr, if_true]
    · simp only [hc, hr, if_true, if_false]
      simp
  · simp only [hc, if_false]
    simp

theorem issued_issue (d : VideoDecoderVDAPrivate) (cs : List Call) :
    issued d (d.issue cs) = cs := by
  simp [issued, issue]

theorem read_planes_calls_filter (buf : Nat) (n i : Nat) (f : Call → Bool)
    (hb : ∀ j, f (Call.CVPixelBufferGetBaseAddressOfPlane buf j) = false)
    (hr : ∀ j, f (Call.CVPixelBufferGetBytesPerRowOfPlane buf j) = false) :
    (read_planes_calls buf i n).filter f = [] := by
  induction n generalizing i with
  | zero => simp [read_planes_calls]
  | succ n ih => simp [read_planes_calls, hb, hr, ih]

theorem frame_read_calls_filters (L : Externals) (fmt : PixelFormat)
    (cv_buffer : CVPixelBufferRef) :
    (frame_read_calls L fmt cv_buffer).filter Call.isLock
      = [Call.CVPixelBufferLockBaseAddress cv_buffer.ptr] ∧
    (frame_read_calls L fmt cv_buffer).filter Call.isUnlock
      = [Call.CVPixelBufferUnlockBaseAddress cv_buffer.ptr] ∧
    (frame_read_calls L fmt cv_buffer).filter Call.isRelease
      = [Call.CVPixelBufferRelease cv_buffer.ptr] ∧
    (frame_read_calls L fmt cv_buffer).filter Call.isCopyFrame = [] := by
  unfold frame_read_calls
  refine ⟨?_, ?_, ?_, ?_⟩
  · simp [List.filter_cons, Call.isLock,
      read_planes_calls_filter cv_buffer.ptr _ 0 Call.isLock (fun _ => rfl) (fun _ => rfl)]
  · simp [List.filter_cons, Call.isUnlock,
      read_planes_calls_filter cv_buffer.ptr _ 0 Call.isUnlock (fun _ => rfl) (fun _ => rfl)]
  · simp [List.filter_cons, Call.isRelease,
      read_planes_calls_filter cv_buffer.ptr _ 0 Call.isRelease (fun _ => rfl) (fun _ => rfl)]
  · simp [List.filter_cons, Call.isCopyFrame,
      read_planes_calls_filter cv_buffer.ptr _ 0 Call.isCopyFrame (fun _ => rfl) (fun _ => rfl)]

theorem copy_planes_calls_filter (src pitch plane_h : List Int) (p : Int) (f : Call → Bool)
    (hf : ∀ s q r t u, f (Call.copyFrame s q r t u) = false) :
    (copy_planes_calls p src pitch plane_h).filter f = [] := by
  induction src generalizing p pitch plane_h with
  | nil => simp [copy_planes_calls]
  | cons s src ih =>
    cases pitch with
    | nil => simp [copy_planes_calls]
    | cons q pitch =>
      cases plane_h with
      | nil => simp [copy_planes_calls]
      | cons r plane_h => simp [copy_planes_calls, hf, ih]

theorem frame_tail_calls_filters (L : Externals) (d : VideoDecoderVDAPrivate)
    (cv_buffer : CVPixelBufferRef) (a : Int) :
    (frame_tail_calls L d cv_buffer a).filter Call.isLock = [] ∧
    (frame_tail_calls L d cv_buffer a).filter Call.isUnlock = [] ∧
    (frame_tail_calls L d cv_buffer a).filter Call.isRelease = [] := by
  unfold frame_tail_calls
  by_cases hc : d.copy_uswc = true
  · by_cases hr : L.isReady (d.calls ++ frame_read_calls L (frame_fmt d) cv_buffer) = true
    · simp only [hc, hr, if_true]
      refine ⟨?_, ?_, ?_⟩
      · simp [List.filter_cons, Call.isLock,
          copy_planes_calls_filter _ _ _ _ Call.isLock (fun _ _ _ _ _ => rfl)]
      · simp [List.filter_cons, Call.isUnlock,
          copy_planes_calls_filter _ _ _ _ Call.isUnlock (fun _ _ _ _ _ => rfl)]
      · simp [List.filter_cons, Call.isRelease,
          copy_planes_calls_filter _ _ _ _ Call.isRelease (fun _ _ _ _ _ => rfl)]
    · simp [hc, hr, Call.isLock, Call.isUnlock, Call.isRelease]
  · simp [hc]

theorem frame_usable_copy (L : Externals) (d : VideoDecoderVDAPrivate)
    (cv_buffer : CVPixelBufferRef) (a : Int) (hu : usable d cv_buffer)
    (hc : d.copy_uswc = true)
    (hr : L.isReady (d.calls ++ frame_read_calls L (frame_fmt d) cv_buffer) = true) :
    (frame L d cv_buffer a).1 =
      { data := some (a, to_int (15 + (frame_planes L d cv_buffer).yuv_size)),
        width := d.width, height := d.height, format := frame_fmt d,
        bits := copy_planes_dst (a + offset_16 a) (frame_planes L d cv_buffer).src
          (frame_planes L d cv_buffer).pitch (frame_planes L d cv_buffer).plane_h,
        bytesPerLine := (frame_planes L d cv_buffer).pitch } ∧
    frame_tail_calls L d cv_buffer a =
      Call.isReady :: copy_planes_calls (a + offset_16 a) (frame_planes L d cv_buffer).src
        (frame_planes L d cv_buffer).pitch (frame_planes L d cv_buffer).plane_h := by
  constructor
  · rw [frame_usable_eq L d cv_buffer a hu, if_pos hc, if_pos hr]
  · unfold frame_tail_calls
    rw [if_pos hc, if_pos hr]

/-- Where the strides fit in an `int` and the sizes do not overflow, the
wrapped plane sizes are the plane sizes. -/
theorem plane_sizes_exact (L : Externals) (d : VideoDecoderVDAPrivate)
    (cv_buffer : CVPixelBufferRef) (n : Nat)
    (hnn : ∀ j, j < n → 0 ≤ pitch_of cv_buffer j * plane_height L d j)
    (hrange : 15 + plane_offset L d cv_buffer n ≤ INT_MAX) (k : Nat) (hk : k ≤ n) :
    ((List.range k).map (fun j =>
        to_int (pitch_of cv_buffer j * plane_height L d j))).sum
      = plane_offset L d cv_buffer k := by
  have e : (List.range k).map (fun j => to_int (pitch_of cv_buffer j * plane_height L d j))
      = (List.range k).map (fun j => pitch_of cv_buffer j * plane_height L d j) := by
    apply List.map_congr_left
    intro j hj
    rw [List.mem_range] at hj
    have h1 := plane_offset_mono L d cv_buffer n hnn (j + 1) (by omega) j (by omega)
    have h2 := plane_offset_mono L d cv_buffer n hnn n (le_refl n) (j + 1) (by omega)
    rw [plane_offset_succ] at h1 h2
    have hr : 15 + plane_offset L d cv_buffer n ≤ 2147483647 := hrange
    exact to_int_of_range _ (by linarith [hnn j (by omega)])
      (by show _ ≤ (2147483647 : Int); linarith [h1.1, h1.2, h2.1, h2.2])
  rw [e]
  rfl

/-- Without overflow `yuv_size` is the payload size. -/
theorem frame_planes_yuv (L : Externals) (d : VideoDecoderVDAPrivate)
    (cv_buffer : CVPixelBufferRef)
    (hnn : ∀ j, j < L.planeCount (frame_fmt d) →
      0 ≤ pitch_of cv_buffer j * plane_height L d j)
    (hrange : 15 + plane_offset L d cv_buffer (L.planeCount (frame_fmt d)) ≤ INT_MAX) :
    (frame_planes L d cv_buffer).yuv_size
      = plane_offset L d cv_buffer (L.planeCount (frame_fmt d)) := by
  have hr : 15 + plane_offset L d cv_buffer (L.planeCount (frame_fmt d)) ≤ 2147483647 := hrange
  unfold frame_planes
  rw [read_planes_yuv]
  · simp [plane_offset, plane_height, List.range_eq_range']
  · exact le_refl _
  · intro j hj
    rw [List.mem_range'_1] at hj
    exact hnn j (by omega)
  · show (0 : Int) + _ ≤ (2147483647 : Int)
    have : ((List.range' 0 (L.planeCount (frame_fmt d))).map (fun j =>
        pitch_of cv_buffer j
          * (if j = 0 then d.height else L.chromaHeight (frame_fmt d) d.height))).sum
        = plane_offset L d cv_buffer (L.planeCount (frame_fmt d)) := by
      simp [plane_offset, plane_height, List.range_eq_range']
    rw [this]
    linarith

/-! ## Frame extraction: theorems -/

/-- C6: when `frame()` takes the optimized-copy branch on a buffer whose
strides (as held in `int pitch[]`) and plane heights are non-negative and
whose payload size plus 15 does not overflow an `int`, the offset
`(16 - (a mod 16)) mod 16` lies in 0..15, the write origin `a + offset` is a
multiple of 16, the byte array has `15 + s` bytes where `s` is the sum of
`pitch[i] * plane_h[i]`, plane `i` has its pointer at the origin plus the
sizes of the planes before it, the `copyFrame` calls are exactly one per
plane, in order, from the plane's source address to that pointer with the
plane's stride and height, and every plane, and so the whole payload
`[origin, origin + s)`, lies inside the byte array `[a, a + s + 15)`. -/
theorem frame_copy_alignment (L : Externals) (d : VideoDecoderVDAPrivate)
    (cv_buffer : CVPixelBufferRef) (a : Int) (hu : usable d cv_buffer)
    (hc : d.copy_uswc = true)
    (hr : L.isReady (d.calls ++ frame_read_calls L (frame_fmt d) cv_buffer) = true)
    (hpitch : ∀ i, i < L.planeCount (frame_fmt d) → 0 ≤ pitch_of cv_buffer i)
    (hh : 0 ≤ d.height) (hch : 0 ≤ L.chromaHeight (frame_fmt d) d.height)
    (hrange : 15 + plane_offset L d cv_buffer (L.planeCount (frame_fmt d)) ≤ INT_MAX) :
    (0 ≤ offset_16 a ∧ offset_16 a ≤ 15 ∧ (a + offset_16 a) % 16 = 0) ∧
    (frame L d cv_buffer a).1.data
      = some (a, 15 + plane_offset L d cv_buffer (L.planeCount (frame_fmt d))) ∧
    0 ≤ plane_offset L d cv_buffer (L.planeCount (frame_fmt d)) ∧
    (frame L d cv_buffer a).1.bits
      = (List.range (L.planeCount (frame_fmt d))).map (fun i =>
          a + offset_16 a + plane_offset L d cv_buffer i) ∧
    (issued d (frame L d cv_buffer a).2).filter Call.isCopyFrame
      = (List.range (L.planeCount (frame_fmt d))).map (fun i =>
          Call.copyFrame (cv_buffer.baseAddressOfPlane i)
            (a + offset_16 a + plane_offset L d cv_buffer i)
            (pitch_of cv_buffer i) (plane_height L d i) (pitch_of cv_buffer i)) ∧
    (a ≤ a + offset_16 a ∧
      a + offset_16 a + plane_offset L d cv_buffer (L.planeCount (frame_fmt d))
        ≤ a + (15 + plane_offset L d cv_buffer (L.planeCount (frame_fmt d)))) ∧
    (∀ i, i < L.planeCount (frame_fmt d) →
      a ≤ a + offset_16 a + plane_offset L d cv_buffer i ∧
      a + offset_16 a + plane_offset L d cv_buffer i
          + pitch_of cv_buffer i * plane_height L d i
        ≤ a + (15 + plane_offset L d cv_buffer (L.planeCount (frame_fmt d)))) := by
  obtain ⟨hf, ht⟩ := frame_usable_copy L d cv_buffer a hu hc hr
  have hst := frame_usable_state L d cv_buffer a hu
  have hfld := frame_planes_fields L d cv_buffer
  have hrf := (frame_read_calls_filters L (frame_fmt d) cv_buffer).2.2.2
  have hoff : 0 ≤ offset_16 a ∧ offset_16 a ≤ 15 ∧ (a + offset_16 a) % 16 = 0 := by
    unfold offset_16
    omega
  have hnn : ∀ j, j < L.planeCount (frame_fmt d) →
      0 ≤ pitch_of cv_buffer j * plane_height L d j := by
    intro j hj
    apply mul_nonneg (hpitch j hj)
    unfold plane_height
    split
    · exact hh
    · exact hch
  have hmono := plane_offset_mono L d cv_buffer (L.planeCount (frame_fmt d)) hnn
    (L.planeCount (frame_fmt d)) (le_refl _)
  have hsum : 0 ≤ plane_offset L d cv_buffer (L.planeCount (frame_fmt d)) :=
    (hmono _ (le_refl _)).1
  have hyuv := frame_planes_yuv L d cv_buffer hnn hrange
  have hr2 : 15 + plane_offset L d cv_buffer (L.planeCount (frame_fmt d)) ≤ 2147483647 :=
    hrange
  refine ⟨hoff, ?_, hsum, ?_, ?_, ⟨by omega, by omega⟩, ?_⟩
  · rw [hf, hyuv]
    show some (a, to_int _) = _
    rw [to_int_of_range _ (by linarith) hrange]
  · rw [hf]
    show copy_planes_dst _ _ _ _ = _
    rw [hfld.1, hfld.2.1, hfld.2.2, copy_planes_dst_range]
    apply List.map_congr_left
    intro k hk
    rw [List.mem_range] at hk
    rw [plane_sizes_exact L d cv_buffer _ hnn hrange k (by omega)]
  · rw [hst, issued_issue, List.filter_append, hrf, List.nil_append, ht, List.filter_cons]
    simp only [Call.isCopyFrame, Bool.false_eq_true, if_false]
    rw [hfld.1, hfld.2.1, hfld.2.2, copy_planes_calls_range]
    rw [List.filter_eq_self.mpr (by
      intro c hc2
      rw [List.mem_map] at hc2
      obtain ⟨k, _, rfl⟩ := hc2
      rfl)]
    apply List.map_congr_left
    intro k hk
    rw [List.mem_range] at hk
    rw [plane_sizes_exact L d cv_buffer _ hnn hrange k (by omega)]
  · intro i hi
    have b1 := hmono i (by omega)
    have b2 := hmono (i + 1) (by omega)
    rw [plane_offset_succ] at b2
    constructor
    · linarith [hoff.1, b1.1]
    · linarith [hoff.2.1, b2.2]

/-- C6, witness: the sample buffer copied into a byte array at address 1001:
offset 7, origin 1008, planes at 1008, 1016 and 1018, 27 bytes allocated, and
the three copies go from the planes of the buffer to these addresses. -/
theorem frame_copy_alignment_witness :
    offset_16 1001 = 7 ∧
    (frame lib_ok (sample_session true) sample_buffer 1001).1.data = some (1001, 27) ∧
    (frame lib_ok (sample_session true) sample_buffer 1001).1.bits = [1008, 1016, 1018] ∧
    (issued (sample_session true)
        (frame lib_ok (sample_session true) sample_buffer 1001).2).filter Call.isCopyFrame
      = [Call.copyFrame 4096 1008 4 2 4, Call.copyFrame 4104 1016 2 1 2,
          Call.copyFrame 4108 1018 2 1 2] :=
  have h := frame_copy_alignment lib_ok (sample_session true) sample_buffer 1001
    (by decide) (by decide) (by decide)
    (fun i _ => by unfold pitch_of sample_buffer; dsimp only; split <;> decide)
    (by decide) (by decide) (by decide)
  ⟨by decide, h.2.1, h.2.2.2.1, h.2.2.2.2.1⟩

theorem frame_seq_log (L : Externals) (bufs : List (CVPixelBufferRef × Int))
    (d : VideoDecoderVDAPrivate) (hfmt : frame_fmt d ≠ PixelFormat.Format_Invalid)
    (hb : ∀ b ∈ bufs, b.1.ptr ≠ 0 ∧ 0 < b.1.dataSize) :
    ∃ cs : List Call, frame_seq L d bufs = d.issue cs ∧
      cs.filter Call.isLock = bufs.map (fun b => Call.CVPixelBufferLockBaseAddress b.1.ptr) ∧
      cs.filter Call.isUnlock = bufs.map (fun b => Call.CVPixelBufferUnlockBaseAddress b.1.ptr) ∧
      cs.filter Call.isRelease = bufs.map (fun b => Call.CVPixelBufferRelease b.1.ptr) := by
  induction bufs generalizing d with
  | nil => exact ⟨[], by simp [frame_seq, issue], rfl, rfl, rfl⟩
  | cons b rest ih =>
    have hbu : usable d b.1 :=
      ⟨(hb b (List.mem_cons_self _ _)).1, (hb b (List.mem_cons_self _ _)).2, hfmt⟩
    have hst := frame_usable_state L d b.1 b.2 hbu
    have hfmt2 : frame_fmt (frame L d b.1 b.2).2 ≠ PixelFormat.Format_Invalid := by
      rw [hst]
      exact hfmt
    obtain ⟨cs, e, l1, l2, l3⟩ :=
      ih (frame L d b.1 b.2).2 hfmt2 (fun x hx => hb x (List.mem_cons_of_mem _ hx))
    obtain ⟨r1, r2, r3, _⟩ := frame_read_calls_filters L (frame_fmt d) b.1
    obtain ⟨t1, t2, t3⟩ := frame_tail_calls_filters L d b.1 b.2
    refine ⟨(frame_read_calls L (frame_fmt d) b.1 ++ frame_tail_calls L d b.1 b.2) ++ cs,
      ?_, ?_, ?_, ?_⟩
    · rw [frame_seq, e, hst, issue_issue]
    · simp only [List.filter_append, r1, t1, l1, List.map_cons, List.append_nil,
        List.singleton_append]
    · simp only [List.filter_append, r2, t2, l2, List.map_cons, List.append_nil,
        List.singleton_append]
    · simp only [List.filter_append, r3, t3, l3, List.map_cons, List.append_nil,
        List.singleton_append]

/-- C7: over any sequence of decode cycles on usable buffers, whichever branch
each `frame()` call takes, the lock calls, the unlock calls and the release
calls issued are exactly one per buffer, in the order of the buffers; so the
number of releases equals the number of cycles. -/
theorem frame_seq_release_once (L : Externals) (d : VideoDecoderVDAPrivate)
    (bufs : List (CVPixelBufferRef × Int))
    (hfmt : frame_fmt d ≠ PixelFormat.Format_Invalid)
    (hb : ∀ b ∈ bufs, b.1.ptr ≠ 0 ∧ 0 < b.1.dataSize) :
    (issued d (frame_seq L d bufs)).filter Call.isLock
      = bufs.map (fun b => Call.CVPixelBufferLockBaseAddress b.1.ptr) ∧
    (issued d (frame_seq L d bufs)).filter Call.isUnlock
      = bufs.map (fun b => Call.CVPixelBufferUnlockBaseAddress b.1.ptr) ∧
    (issued d (frame_seq L d bufs)).filter Call.isRelease
      = bufs.map (fun b => Call.CVPixelBufferRelease b.1.ptr) ∧
    ((issued d (frame_seq L d bufs)).filter Call.isRelease).length = bufs.length := by
  obtain ⟨cs, e, l1, l2, l3⟩ := frame_seq_log L bufs d hfmt hb
  rw [e, issued_issue]
  exact ⟨l1, l2, l3, by rw [l3, List.length_map]⟩

/-- C7, witness: two decode cycles on the sample buffer, first with the copy
branch and then again, release the buffer twice in all. -/
theorem frame_seq_release_once_witness :
    (issued (sample_session true)
        (frame_seq lib_ok (sample_session true)
          [(sample_buffer, 1001), (sample_buffer, 2000)])).filter Call.isRelease
      = [Call.CVPixelBufferRelease 7, Call.CVPixelBufferRelease 7] :=
  (frame_seq_release_once lib_ok (sample_session true)
    [(sample_buffer, 1001), (sample_buffer, 2000)] (by decide)
    (by
      intro b hb
      simp only [List.mem_cons, List.mem_singleton, List.not_mem_nil, or_false] at hb
      rcases hb with rfl | rfl <;> exact ⟨by decide, by decide⟩)).2.2.1

/-- In the optimized-copy branch the calls of `frame()` are the reads, closed
by the unlock and the release of the buffer, then `isReady`, then the copies. -/
theorem frame_copy_calls (L : Externals) (d : VideoDecoderVDAPrivate)
    (cv_buffer : CVPixelBufferRef) (a : Int) (hu : usable d cv_buffer)
    (hc : d.copy_uswc = true)
    (hr : L.isReady (d.calls ++ frame_read_calls L (frame_fmt d) cv_buffer) = true) :
    issued d (frame L d cv_buffer a).2 =
      [Call.CVPixelBufferGetDataSize cv_buffer.ptr,
        Call.CVPixelBufferLockBaseAddress cv_buffer.ptr]
      ++ read_planes_calls cv_buffer.ptr 0 (L.planeCount (frame_fmt d))
      ++ [Call.CVPixelBufferUnlockBaseAddress cv_buffer.ptr,
          Call.CVPixelBufferRelease cv_buffer.ptr]
      ++ Call.isReady :: copy_planes_calls (a + offset_16 a) (frame_planes L d cv_buffer).src
          (frame_planes L d cv_buffer).pitch (frame_planes L d cv_buffer).plane_h := by
  rw [frame_usable_state L d cv_buffer a hu, issued_issue,
    (frame_usable_copy L d cv_buffer a hu hc hr).2]
  rfl

/-- C8, the code at the failing input: on the sample buffer with the cache
ready, `frame()` takes the optimized-copy branch and issues the release of
buffer 7 before `isReady` and before the three `copyFrame` calls that read
the planes of that buffer. -/
theorem frame_releases_before_copies :
    (frame lib_ok (sample_session true) sample_buffer 1001).1.data.isSome = true ∧
    issued (sample_session true) (frame lib_ok (sample_session true) sample_buffer 1001).2 =
      [Call.CVPixelBufferGetDataSize 7, Call.CVPixelBufferLockBaseAddress 7,
        Call.CVPixelBufferGetBaseAddressOfPlane 7 0, Call.CVPixelBufferGetBytesPerRowOfPlane 7 0,
        Call.CVPixelBufferGetBaseAddressOfPlane 7 1, Call.CVPixelBufferGetBytesPerRowOfPlane 7 1,
        Call.CVPixelBufferGetBaseAddressOfPlane 7 2, Call.CVPixelBufferGetBytesPerRowOfPlane 7 2,
        Call.CVPixelBufferUnlockBaseAddress 7, Call.CVPixelBufferRelease 7,
        Call.isReady,
        Call.copyFrame 4096 1008 4 2 4, Call.copyFrame 4104 1016 2 1 2,
        Call.copyFrame 4108 1018 2 1 2] ∧
    release_after_copies 7
      (issued (sample_session true) (frame lib_ok (sample_session true) sample_buffer 1001).2)
      = false := by
  decide

/-- C10: when the buffer handle is null, or its data size is not positive, or
the pixel format is unsupported, `frame()` returns the empty frame, issues no
lock and no `copyFrame`, and changes nothing in the session but its call log:
the hardware context, the recorded width and height and `copy_uswc` are as
before. -/
theorem frame_error_paths (L : Externals) (d : VideoDecoderVDAPrivate)
    (cv_buffer : CVPixelBufferRef) (a : Int)
    (h : cv_buffer.ptr = 0 ∨ cv_buffer.dataSize ≤ 0 ∨
      frame_fmt d = PixelFormat.Format_Invalid) :
    (frame L d cv_buffer a).1 = VideoFrame.empty ∧
    (issued d (frame L d cv_buffer a).2).any Call.isLock = false ∧
    (issued d (frame L d cv_buffer a).2).any Call.isCopyFrame = false ∧
    (frame L d cv_buffer a).2.hw_ctx = d.hw_ctx ∧
    (frame L d cv_buffer a).2.width = d.width ∧
    (frame L d cv_buffer a).2.height = d.height ∧
    (frame L d cv_buffer a).2.copy_uswc = d.copy_uswc ∧
    (frame L d cv_buffer a).2 = { d with calls := (frame L d cv_buffer a).2.calls } := by
  unfold frame_fmt at h
  by_cases h1 : cv_buffer.ptr = 0
  · unfold frame
    rw [if_pos h1]
    simp [issued, issue, Call.isLock, Call.isCopyFrame]
  · by_cases h2 : cv_buffer.dataSize ≤ 0
    · unfold frame
      rw [if_neg h1, if_pos h2]
      simp [issued, issue, Call.isLock, Call.isCopyFrame]
    · have h3 : pixfmt_of_cv d.hw_ctx.cv_pix_fmt_type = PixelFormat.Format_Invalid := by
        rcases h with h | h | h
        · exact absurd h h1
        · exact absurd h h2
        · exact h
      unfold frame
      rw [if_neg h1, if_neg h2]
      dsimp only
      simp only [issue_hw_ctx, issue_issue]
      rw [if_pos h3]
      simp [issued, issue, Call.isLock, Call.isCopyFrame]

/-- C10, witness: a null handle on a configured session gives the empty frame
and leaves the hardware context as it was. -/
theorem frame_error_paths_witness :
    (frame lib_ok (sample_session true) { sample_buffer with ptr := 0 } 1001).1
      = VideoFrame.empty ∧
    (frame lib_ok (sample_session true) { sample_buffer with ptr := 0 } 1001).2.hw_ctx
      = (sample_session true).hw_ctx :=
  have h := frame_error_paths lib_ok (sample_session true) { sample_buffer with ptr := 0 } 1001
    (Or.inl rfl)
  ⟨h.1, h.2.2.2.1⟩

end QtAV
